import Mathlib

/-!
Shallow embedding of the physics / protection / state-estimation core of
`dashboard_Pro.py` (digital-twin power-distribution dashboard), together
with theorems settling the specification claims about it.

Python floats are idealised as exact rationals (`ℚ`) where the code uses
only field operations and comparisons, and as reals (`ℝ`) where it uses
transcendental functions (`**` with fractional exponent, `cos`, `sin`,
`sqrt`, `pi`).  Python code that can raise `ZeroDivisionError` is embedded
as an `Option`-valued function returning `none` on the raising input.
-/

/-! ## Symmetrical-component fault solver (`compute_symmetrical_components_physics`) -/

/-- The four fault topologies of `FAULT_LIBRARY` (closed enum for the
fault-type strings dispatched on in the source). -/
inductive FaultType
  | LG   -- "L-G (Line-to-Ground)"
  | LL   -- "L-L (Line-to-Line)"
  | LLG  -- "L-L-G (2-Line-Ground)"
  | LLL  -- "L-L-L (3-Phase Bolted)"
deriving DecidableEq, Repr

/-- Embedding of `compute_symmetrical_components_physics(fault_type,
V_prefault, Z1, Z2, Z0, Zf)`.  Returns the triple `(I1, I2, I0)` the
Python function returns; `none` models the `ZeroDivisionError` Python
raises in the `L-L-G` branch when `Z2 + Z0 == 0` (the inner division
`(Z2*Z0)/(Z2+Z0)` there is not guarded).  Each outer denominator is
replaced by `0.001` when it is exactly `0`, as in the source. -/
def compute_symmetrical_components_physics (fault_type : FaultType)
    (V_prefault Z1 Z2 Z0 Zf : ℚ) : Option (ℚ × ℚ × ℚ) :=
  match fault_type with
  | .LG =>
      let denom := Z1 + Z2 + Z0 + 3 * Zf
      let denom := if denom = 0 then 0.001 else denom
      let I_seq := V_prefault / denom
      some (I_seq, I_seq, I_seq)
  | .LL =>
      let denom := Z1 + Z2 + Zf
      let denom := if denom = 0 then 0.001 else denom
      let I1 := V_prefault / denom
      some (|I1|, |I1|, 0)
  | .LLG =>
      if Z2 + Z0 = 0 then none else
      let denom := Z1 + (Z2 * Z0) / (Z2 + Z0)
      let denom := if denom = 0 then 0.001 else denom
      let I1 := V_prefault / denom
      some (|I1|, |I1 * (Z0 / (Z2 + Z0))|, |I1 * (Z2 / (Z2 + Z0))|)
  | .LLL =>
      let denom := Z1 + Zf
      let denom := if denom = 0 then 0.001 else denom
      let I1 := V_prefault / denom
      some (I1, 0, 0)

/-! ## Recloser finite-state machine (`recloser_logic`) -/

/-- The five recloser states of the source (string-valued in Python). -/
inductive RecloserState
  | CLOSED
  | TRIPPED
  | WAITING
  | RECLOSE
  | LOCKOUT
deriving DecidableEq, Repr

/-- The share of `st.session_state` read and written by `recloser_logic`:
`recloser_state`, `recloser_timer` (initialised to the float `0.0`, hence
`ℚ`), `relay_trip`, and the fault flag `fault_active` (read-only here). -/
structure ProtectionState where
  recloser_state : RecloserState
  recloser_timer : ℚ
  relay_trip : Bool
  fault_active : Bool
deriving DecidableEq, Repr

/-- Embedding of `recloser_logic()`.  The entire dispatch is guarded by
`if st.session_state.fault_active:`, exactly as in the source; the
log_event calls are presentation-only and not modelled. -/
def recloser_logic (s : ProtectionState) : ProtectionState :=
  if s.fault_active then
    match s.recloser_state with
    | .CLOSED =>
        { s with recloser_state := .TRIPPED, relay_trip := true,
                 recloser_timer := 0 }
    | .TRIPPED =>
        { s with recloser_state := .WAITING }
    | .WAITING =>
        let timer := s.recloser_timer + 1
        if timer > 5 then
          { s with recloser_timer := timer, recloser_state := .RECLOSE }
        else
          { s with recloser_timer := timer }
    | .RECLOSE =>
        -- relay_trip is first cleared, then the fault flag is re-tested
        -- (necessarily still true under the outer guard).
        if s.fault_active then
          { s with relay_trip := true, recloser_state := .LOCKOUT }
        else
          { s with relay_trip := false, recloser_state := .CLOSED }
    | .LOCKOUT =>
        { s with relay_trip := true }
  else
    s

/-! ## Relay accumulator (`render_feeder`, trip-curve integration) -/

/-- One simulation tick as seen by the relay accumulator: either the bus
is under an active local fault with a computed `trip_time` (the code then
adds `(speed / trip_time) * 100`), or it is not (the code then decays the
accumulator by 5, floored at 0). -/
inductive RelayTick
  | fault (speed trip_time : ℚ)
  | noFault
deriving DecidableEq, Repr

/-- One accumulator update of `render_feeder`: under fault
`relay_accumulator += (speed / trip_time) * 100` (no upper clamp in the
source); otherwise `relay_accumulator = max(0, relay_accumulator - 5.0)`. -/
def relay_accumulator_step (acc : ℚ) : RelayTick → ℚ
  | .fault speed trip_time => acc + (speed / trip_time) * 100
  | .noFault => max 0 (acc - 5)

/-- The stored accumulator after a sequence of ticks. -/
def relay_accumulator_run (acc : ℚ) (ticks : List RelayTick) : ℚ :=
  ticks.foldl relay_accumulator_step acc

/-- The percentage the UI displays: `min(100, int(relay_accumulator))`.
Python `int()` truncates toward zero, which agrees with `⌊·⌋` on the
nonnegative values that occur. -/
def relay_display (acc : ℚ) : ℤ :=
  min 100 ⌊acc⌋

/-- A fault tick with nonnegative speed and positive trip time (the code
only reaches the increment with `speed ∈ {0.5,1,2,5}` and a trip time
that is positive). -/
def RelayTick.Valid : RelayTick → Prop
  | .fault speed trip_time => 0 ≤ speed ∧ 0 < trip_time
  | .noFault => True

instance : DecidablePred RelayTick.Valid := by
  intro t
  cases t <;> simp [RelayTick.Valid] <;> infer_instance

/-! ## Smart inverter (`smart_inverter_logic`) -/

/-- Embedding of `smart_inverter_logic(v_pu, p_available_kw,
capacity_kw)`, returning the `(p_out, q_out)` pair; the third returned
component (status label strings) is presentation-only and not modelled. -/
def smart_inverter_logic (v_pu p_available_kw capacity_kw : ℚ) : ℚ × ℚ :=
  let p_out :=
    if v_pu > 1.05 then
      p_available_kw * max 0 (1 - (v_pu - 1.05) * 10)
    else p_available_kw
  let q_out :=
    if v_pu > 1.02 then
      max (-1 * capacity_kw * (v_pu - 1.02) * 5) (-0.44 * capacity_kw)
    else if v_pu < 0.98 then
      min (capacity_kw * (0.98 - v_pu) * 5) (0.44 * capacity_kw)
    else 0
  (p_out, q_out)

/-! ## BESS dispatch (`bess_dispatch_logic`) and auto-tap changer -/

/-- BESS_MAX_POWER (kW). -/
def BESS_MAX_POWER : ℚ := 100

/-- BESS_CAPACITY_KWH. -/
def BESS_CAPACITY_KWH : ℚ := 500

/-- Embedding of `bess_dispatch_logic(net_load_kw, current_hour)` acting
on `st.session_state.bess_soc`; returns `(p_bess, new_soc)` (the mode
string is presentation-only).  `net_load_kw` is accepted but, as in the
source, unused by the dispatch rule.  The SoC is only written when
`st.session_state.run_simulation` is true, and is then clamped to
`[0,100]`. -/
def bess_dispatch_logic (net_load_kw : ℚ) (current_hour : ℤ)
    (run_simulation : Bool) (soc : ℚ) : ℚ × ℚ :=
  let _ := net_load_kw
  let h := current_hour % 24
  let p_bess : ℚ :=
    if 10 ≤ h ∧ h ≤ 15 then
      (if soc < 95 then -0.8 * BESS_MAX_POWER else 0)
    else if 18 ≤ h ∧ h ≤ 22 then
      (if soc > 20 then 1.0 * BESS_MAX_POWER else 0)
    else 0
  let energy_delta := (p_bess * (-1)) / 60
  let new_soc :=
    if run_simulation then
      max 0 (min 100 (soc + (energy_delta / BESS_CAPACITY_KWH * 100)))
    else soc
  (p_bess, new_soc)

/-- SoC after a sequence of dispatch calls, each with its own net load,
hour and run flag. -/
def bess_dispatch_run (soc : ℚ) (inputs : List (ℚ × ℤ × Bool)) : ℚ :=
  inputs.foldl (fun s i => (bess_dispatch_logic i.1 i.2.1 i.2.2 s).2) soc

/-- One automatic tap-changer adjustment from `render_feeder`: when
`auto_tap_mode` is on and the relay has not tripped, a low voltage raises
the tap by 0.005 clamped at 1.10, a high voltage lowers it by 0.005
clamped at 0.90; otherwise the tap is left alone. -/
def auto_tap_step (auto_tap_mode relay_trip : Bool) (voltage_pu_phys : ℚ)
    (tap : ℚ) : ℚ :=
  if auto_tap_mode ∧ ¬relay_trip then
    if voltage_pu_phys < 0.96 then min 1.10 (tap + 0.005)
    else if voltage_pu_phys > 1.04 then max 0.90 (tap - 0.005)
    else tap
  else tap

/-- Tap position after a sequence of automatic adjustments. -/
def auto_tap_run (tap : ℚ) (inputs : List (Bool × Bool × ℚ)) : ℚ :=
  inputs.foldl (fun t i => auto_tap_step i.1 i.2.1 i.2.2 t) tap

/-! ## Inverse-time overcurrent curve (`calculate_iec_trip_time`) -/

/-- Embedding of `calculate_iec_trip_time(current_pu, tms=0.5)`:
returns `none` ("no trip") for `current_pu ≤ 1.0`; otherwise
`tms * (0.14 / ((current_pu ** 0.02) - 1))`, or the clamp value `9999.0`
when the denominator is within `1e-5` of zero.  The fractional power is
`Real.rpow`. -/
noncomputable def calculate_iec_trip_time (current_pu tms : ℝ) : Option ℝ :=
  if current_pu ≤ 1.0 then none
  else
    let k : ℝ := 0.14
    let alpha : ℝ := 0.02
    let denominator : ℝ := current_pu ^ alpha - 1
    if |denominator| < 1e-5 then some 9999.0
    else some (tms * (k / denominator))

/-! ## Swing-equation grid dynamics (`update_grid_physics`) -/

/-- INERTIA_H (s). -/
def INERTIA_H : ℝ := 5
/-- NOMINAL_FREQ (Hz). -/
def NOMINAL_FREQ : ℝ := 50
/-- DAMPING_D. -/
def DAMPING_D : ℝ := 1
/-- SYSTEM_BASE_MVA. -/
def SYSTEM_BASE_MVA : ℝ := 10
/-- TRANSFORMER_RATING_KVA. -/
def TRANSFORMER_RATING_KVA : ℝ := 10000
/-- TRANSFORMER_TAU. -/
def TRANSFORMER_TAU : ℝ := 20

/-- The share of `st.session_state` read and written by
`update_grid_physics`: frequency, rotor angle, mechanical-power
accumulator, transformer temperature and ambient temperature
(`room_temp`, read-only here). -/
structure GridState where
  grid_freq : ℝ
  rotor_angle : ℝ
  mech_power : ℝ
  transformer_thermal : ℝ
  room_temp : ℝ

/-- Embedding of `update_grid_physics(current_p, current_q)`: governor
feedback into the mechanical-power accumulator, swing-equation
acceleration, forward-Euler integration of frequency and rotor angle
with `dt = 0.05`, and first-order transformer thermal lag. -/
noncomputable def update_grid_physics (current_p current_q : ℝ)
    (s : GridState) : GridState :=
  let H_const := INERTIA_H
  let f0 := NOMINAL_FREQ
  let M := 2 * H_const / (2 * Real.pi * f0)
  let D := DAMPING_D
  let curr_freq := s.grid_freq
  let curr_delta := s.rotor_angle
  let Pe_pu := current_p / (SYSTEM_BASE_MVA * 1000.0)
  let governor_response := (50.0 - curr_freq) * 0.5
  let curr_Pm := s.mech_power + governor_response * 100.0
  let Pm_pu := curr_Pm / (SYSTEM_BASE_MVA * 1000.0)
  let w_dev := 2 * Real.pi * (curr_freq - 50.0)
  let accel := (Pm_pu - Pe_pu - (D * w_dev)) / M
  let dt : ℝ := 0.05
  let df_dt := accel / (2 * Real.pi)
  let new_freq := curr_freq + (df_dt * dt)
  let new_delta := curr_delta + (2 * Real.pi * (new_freq - 50.0) * dt)
  let s_load := Real.sqrt (current_p ^ 2 + current_q ^ 2)
  let loading_pct := s_load / TRANSFORMER_RATING_KVA
  let t_rise_max : ℝ := 65.0
  let t_ultimate := s.room_temp + (t_rise_max * loading_pct ^ 2)
  let new_thermal :=
    s.transformer_thermal
      + (1.0 / TRANSFORMER_TAU) * (t_ultimate - s.transformer_thermal)
  { s with grid_freq := new_freq, rotor_angle := new_delta,
           mech_power := curr_Pm, transformer_thermal := new_thermal }

/-! ## Gauss-Newton WLS state estimator (`StateEstimator`) -/

/-- The `StateEstimator` constructed with the source-to-bus line
resistance and reactance. -/
structure StateEstimator where
  R : ℝ
  X : ℝ

/-- Python `cmath.rect(m, θ)`. -/
noncomputable def cmath_rect (m θ : ℝ) : ℂ :=
  ⟨m * Real.cos θ, m * Real.sin θ⟩

/-- The measurement function `h(x)` of `StateEstimator.solve`:
`V_c = rect(V, δ)`, `I = (V_source − V_c)/Z`, `S = V_c · conj(I)`,
`h = (V, Re S, Im S)`. -/
noncomputable def wls_h (se : StateEstimator) (V_source : ℝ)
    (x : ℝ × ℝ) : ℝ × ℝ × ℝ :=
  let V_c := cmath_rect x.1 x.2
  let V_s : ℂ := ⟨V_source, 0⟩
  let Z : ℂ := ⟨se.R, se.X⟩
  let I_c := (V_s - V_c) / Z
  let S_c := V_c * star I_c
  (x.1, S_c.re, S_c.im)

/-- Componentwise residual `r = z − h`. -/
def wls_residual (z h : ℝ × ℝ × ℝ) : ℝ × ℝ × ℝ :=
  (z.1 - h.1, z.2.1 - h.2.1, z.2.2 - h.2.2)

/-- `np.max(np.abs(r))` for the 3-vector `r`. -/
def wls_max_abs (r : ℝ × ℝ × ℝ) : ℝ :=
  max |r.1| (max |r.2.1| |r.2.2|)

/-- The chi-square cost `J = rᵀ W r` with `W = diag(10000, 100, 100)`. -/
def wls_J (r : ℝ × ℝ × ℝ) : ℝ :=
  10000 * r.1 ^ 2 + 100 * r.2.1 ^ 2 + 100 * r.2.2 ^ 2

/-- One Gauss-Newton update of `StateEstimator.solve`: numerical
Jacobian by forward differences with step `ε = 1e-5` (the perturbed
`h`-vectors the Python builds literally equal `h` at the perturbed
state), gain matrix `G = HᵀWH`, and the solved step `x + G⁻¹HᵀWr`
written out with Cramer's rule for the 2×2 system.  Returns `none`
when `G` is singular, modelling the `np.linalg.solve` exception the
`except: break` catches. -/
noncomputable def wls_gn_step (se : StateEstimator) (V_source : ℝ)
    (x : ℝ × ℝ) (r : ℝ × ℝ × ℝ) : Option (ℝ × ℝ) :=
  let epsilon : ℝ := 1e-5
  let h_val := wls_h se V_source x
  let h_p_V := wls_h se V_source (x.1 + epsilon, x.2)
  let h_p_d := wls_h se V_source (x.1, x.2 + epsilon)
  let a1 := (h_p_V.1 - h_val.1) / epsilon
  let a2 := (h_p_V.2.1 - h_val.2.1) / epsilon
  let a3 := (h_p_V.2.2 - h_val.2.2) / epsilon
  let b1 := (h_p_d.1 - h_val.1) / epsilon
  let b2 := (h_p_d.2.1 - h_val.2.1) / epsilon
  let b3 := (h_p_d.2.2 - h_val.2.2) / epsilon
  let g11 := 10000 * a1 ^ 2 + 100 * a2 ^ 2 + 100 * a3 ^ 2
  let g12 := 10000 * a1 * b1 + 100 * a2 * b2 + 100 * a3 * b3
  let g22 := 10000 * b1 ^ 2 + 100 * b2 ^ 2 + 100 * b3 ^ 2
  let rhs1 := 10000 * a1 * r.1 + 100 * a2 * r.2.1 + 100 * a3 * r.2.2
  let rhs2 := 10000 * b1 * r.1 + 100 * b2 * r.2.1 + 100 * b3 * r.2.2
  let det := g11 * g22 - g12 * g12
  if det = 0 then none
  else some (x.1 + (g22 * rhs1 - g12 * rhs2) / det,
             x.2 + (g11 * rhs2 - g12 * rhs1) / det)

/-- The iteration loop of `StateEstimator.solve`, fuelled by the number
of remaining iterations (started at `max_iter = 10`).  Each level
computes the residual of the current state; it stops early on
convergence (`max |r| < 1e-4`) or a singular gain matrix, returning the
state alongside the residual the final cost is computed from.  When the
final iteration performs an update, the returned residual is the one
computed before that update, exactly as the Python `for` loop leaves
`r` behind. -/
noncomputable def wls_loop (se : StateEstimator) (z : ℝ × ℝ × ℝ)
    (V_source : ℝ) : ℕ → ℝ × ℝ → (ℝ × ℝ) × (ℝ × ℝ × ℝ)
  | 0, x => (x, wls_residual z (wls_h se V_source x))
  | fuel + 1, x =>
      let r := wls_residual z (wls_h se V_source x)
      if wls_max_abs r < 1e-4 then (x, r)
      else
        match wls_gn_step se V_source x r with
        | none => (x, r)
        | some xNext =>
            if fuel = 0 then (xNext, r)
            else wls_loop se z V_source fuel xNext

/-- Embedding of `StateEstimator.solve(z, V_source)`: flat start
`x = (1.0, 0.0)`, weights `diag(10000, 100, 100)`, at most 10
iterations, tolerance `1e-4`; returns `(x[0], J)`. -/
noncomputable def StateEstimator.solve (se : StateEstimator)
    (z : ℝ × ℝ × ℝ) (V_source : ℝ) : ℝ × ℝ :=
  let res := wls_loop se z V_source 10 (1.0, 0.0)
  (res.1.1, wls_J res.2)

/-! ## Theorems -/

/-- Claim C10: whenever `fault_active` is false, one evaluation of
`recloser_logic` changes nothing at all, for every starting state: the
entire dispatch sits under `if st.session_state.fault_active`. -/
theorem recloser_logic_noop_when_no_fault (s : ProtectionState)
    (h : s.fault_active = false) : recloser_logic s = s := by
  simp [recloser_logic, h]

/-- Witness for C10 at the concrete state (WAITING, timer 3, relay
tripped, fault cleared). -/
theorem recloser_logic_noop_when_no_fault_witness :
    recloser_logic ⟨.WAITING, 3, true, false⟩
      = ⟨.WAITING, 3, true, false⟩ :=
  recloser_logic_noop_when_no_fault ⟨.WAITING, 3, true, false⟩ rfl

/-- Claim C1 (code evaluation at the failing input): with the recloser
in RECLOSE and the fault no longer active, `recloser_logic` leaves the
state completely unchanged — in particular it does not transition to
CLOSED and does not clear `relay_trip`, contrary to the specified
RECLOSE behaviour.  The source's `else` branch (logging "Reclose
Successful" and setting CLOSED) is unreachable because the whole
dispatch is guarded by the same `fault_active` flag it re-tests. -/
theorem recloser_reclose_cleared_fault_no_transition :
    recloser_logic ⟨.RECLOSE, 6, true, false⟩ = ⟨.RECLOSE, 6, true, false⟩ ∧
    (recloser_logic ⟨.RECLOSE, 6, true, false⟩).recloser_state
      ≠ RecloserState.CLOSED ∧
    (recloser_logic ⟨.RECLOSE, 6, true, false⟩).relay_trip = true := by
  refine ⟨rfl, by decide, rfl⟩

/-- Claim C5: the fault solver reproduces the textbook values: an LLL
fault with `Zf=0, Z1=0.2, V=1.0` gives `I1 = 5` exactly with
`I2 = I0 = 0`, and an LG fault with `Zf=0, Z1=Z2=0.2, Z0=0.6, V=1.0`
gives `I1 = I2 = I0 = 1` exactly. -/
theorem fault_solver_textbook_values :
    compute_symmetrical_components_physics .LLL 1 0.2 0.2 0.6 0
        = some (5, 0, 0) ∧
    compute_symmetrical_components_physics .LG 1 0.2 0.2 0.6 0
        = some (1, 1, 1) := by
  constructor <;> norm_num [compute_symmetrical_components_physics]

/-- Counterexample to claim C3: the stored `relay_accumulator` exceeds
100.  Starting from the initial value 0, three consecutive fault ticks
with the default clock speed 1.0 and a trip time of 2 (a realistic value
for a bolted three-phase fault on the default impedances) leave the
stored accumulator at 150: the source never clamps the increment, it
only clamps the displayed percentage. -/
theorem relay_accumulator_exceeds_100 :
    100 < relay_accumulator_run 0
      [RelayTick.fault 1 2, RelayTick.fault 1 2, RelayTick.fault 1 2] := by
  norm_num [relay_accumulator_run, relay_accumulator_step, List.foldl]

/-- Claim C3 as amended: for every tick sequence (fault ticks with
nonnegative speed and positive trip time, or no-fault decay ticks) and
every nonnegative start, the stored accumulator stays nonnegative, and
the clamp at 100 holds of the displayed percentage
`min(100, int(relay_accumulator))` rather than of the stored value. -/
theorem relay_accumulator_nonneg_and_display_bounded (acc : ℚ)
    (ticks : List RelayTick) (h0 : 0 ≤ acc)
    (hv : ∀ t ∈ ticks, t.Valid) :
    0 ≤ relay_accumulator_run acc ticks ∧
    relay_display (relay_accumulator_run acc ticks) ≤ 100 := by
  have main : 0 ≤ relay_accumulator_run acc ticks := by
    induction ticks generalizing acc with
    | nil => exact h0
    | cons t ts ih =>
        have ht : t.Valid := hv t (List.mem_cons_self t ts)
        have hv2 : ∀ u ∈ ts, u.Valid := fun u hu => hv u (List.mem_cons_of_mem t hu)
        have hstep : 0 ≤ relay_accumulator_step acc t := by
          cases t with
          | fault speed trip_time =>
              have hs : 0 ≤ speed ∧ 0 < trip_time := ht
              have : 0 ≤ (speed / trip_time) * 100 :=
                mul_nonneg (div_nonneg hs.1 hs.2.le) (by norm_num)
              simpa [relay_accumulator_step] using add_nonneg h0 this
          | noFault => exact le_max_left 0 (acc - 5)
        exact ih (relay_accumulator_step acc t) hstep hv2
  exact ⟨main, min_le_left 100 _⟩

/-- Witness for the amended C3 at a concrete two-tick run. -/
theorem relay_accumulator_nonneg_witness :
    0 ≤ relay_accumulator_run 0 [RelayTick.fault 1 2, RelayTick.noFault] ∧
    relay_display (relay_accumulator_run 0
        [RelayTick.fault 1 2, RelayTick.noFault]) ≤ 100 :=
  relay_accumulator_nonneg_and_display_bounded 0
    [RelayTick.fault 1 2, RelayTick.noFault] (by norm_num) (by decide)

/-- Claim C7: Volt-Watt curtailment above 1.05 pu multiplies the
available power by `max(0, 1 − (v − 1.05)·10)`; at 1.10 pu the curtail
factor is exactly 0.5; at 0.95 pu the reactive injection is
`min(0.15·capacity, 0.44·capacity)`; and in the deadband
`0.98 ≤ v ≤ 1.02` the reactive output is 0. -/
theorem smart_inverter_voltwatt_voltvar (v p c : ℚ) :
    (1.05 < v → (smart_inverter_logic v p c).1
        = p * max 0 (1 - (v - 1.05) * 10)) ∧
    (smart_inverter_logic 1.10 p c).1 = p * 0.5 ∧
    (smart_inverter_logic 0.95 p c).2 = min (c * 0.15) (0.44 * c) ∧
    (0.98 ≤ v → v ≤ 1.02 → (smart_inverter_logic v p c).2 = 0) := by
  refine ⟨fun h => ?_, ?_, ?_, fun h1 h2 => ?_⟩
  · simp [smart_inverter_logic, h]
  · have : max (0:ℚ) (1 - (1.10 - 1.05) * 10) = 0.5 := by norm_num
    simp [smart_inverter_logic, this]
    norm_num
  · have : c * (0.98 - 0.95 : ℚ) * 5 = c * 0.15 := by ring
    simp [smart_inverter_logic, this]
    norm_num
  · have hq1 : ¬ (1.02 < v) := by linarith
    have hq2 : ¬ (v < 0.98) := by linarith
    simp [smart_inverter_logic, hq1, hq2]

/-- Witness for C7 at concrete voltages 1.06 and 1.00. -/
theorem smart_inverter_voltwatt_voltvar_witness :
    (smart_inverter_logic 1.06 10 20).1
        = 10 * max 0 (1 - (1.06 - 1.05) * 10) ∧
    (smart_inverter_logic 1 10 20).2 = 0 :=
  ⟨(smart_inverter_voltwatt_voltvar 1.06 10 20).1 (by norm_num),
   (smart_inverter_voltwatt_voltvar 1 10 20).2.2.2 (by norm_num) (by norm_num)⟩

/-- One BESS dispatch call keeps the state of charge in [0,100]: when
the simulation is running the new SoC is clamped, otherwise it is left
unchanged. -/
theorem bess_dispatch_step_soc_mem (net : ℚ) (hr : ℤ) (rs : Bool)
    (soc : ℚ) (h0 : 0 ≤ soc) (h1 : soc ≤ 100) :
    0 ≤ (bess_dispatch_logic net hr rs soc).2 ∧
    (bess_dispatch_logic net hr rs soc).2 ≤ 100 := by
  unfold bess_dispatch_logic
  cases rs with
  | false => exact ⟨h0, h1⟩
  | true =>
      refine ⟨le_max_left 0 _, max_le (by norm_num) (min_le_left 100 _)⟩

/-- One automatic tap adjustment keeps the tap position in
[0.90, 1.10]. -/
theorem auto_tap_step_mem (a r : Bool) (v tap : ℚ)
    (h0 : 0.90 ≤ tap) (h1 : tap ≤ 1.10) :
    0.90 ≤ auto_tap_step a r v tap ∧ auto_tap_step a r v tap ≤ 1.10 := by
  unfold auto_tap_step
  split_ifs
  · exact ⟨le_min (by norm_num) (by linarith), min_le_left _ _⟩
  · exact ⟨le_max_left _ _, max_le (by norm_num) (by linarith)⟩
  · exact ⟨h0, h1⟩
  · exact ⟨h0, h1⟩

/-- Claim C8: under arbitrary sequences of dispatch calls the BESS state
of charge never leaves [0,100], and under arbitrary sequences of
automatic tap adjustments the tap position never leaves [0.90, 1.10]. -/
theorem bess_soc_and_tap_invariants (soc : ℚ)
    (bessIn : List (ℚ × ℤ × Bool)) (tap : ℚ)
    (tapIn : List (Bool × Bool × ℚ))
    (hs0 : 0 ≤ soc) (hs1 : soc ≤ 100)
    (ht0 : 0.90 ≤ tap) (ht1 : tap ≤ 1.10) :
    (0 ≤ bess_dispatch_run soc bessIn ∧ bess_dispatch_run soc bessIn ≤ 100) ∧
    (0.90 ≤ auto_tap_run tap tapIn ∧ auto_tap_run tap tapIn ≤ 1.10) := by
  constructor
  · induction bessIn generalizing soc hs0 hs1 with
    | nil => exact ⟨hs0, hs1⟩
    | cons i is ih =>
        have h := bess_dispatch_step_soc_mem i.1 i.2.1 i.2.2 soc hs0 hs1
        exact ih (bess_dispatch_logic i.1 i.2.1 i.2.2 soc).2 h.1 h.2
  · induction tapIn generalizing tap ht0 ht1 with
    | nil => exact ⟨ht0, ht1⟩
    | cons i is ih =>
        have h := auto_tap_step_mem i.1 i.2.1 i.2.2 tap ht0 ht1
        exact ih (auto_tap_step i.1 i.2.1 i.2.2 tap) h.1 h.2

/-- Witness for C8: a charging hour, a discharging hour and an idle hour
starting from the initial SoC of 50, and a raising plus a lowering tap
adjustment starting from the initial tap of 1.0. -/
theorem bess_soc_and_tap_invariants_witness :
    (0 ≤ bess_dispatch_run 50 [(0, 12, true), (0, 20, true), (0, 3, true)] ∧
     bess_dispatch_run 50 [(0, 12, true), (0, 20, true), (0, 3, true)] ≤ 100) ∧
    (0.90 ≤ auto_tap_run 1 [(true, false, 0.95), (true, false, 1.05)] ∧
     auto_tap_run 1 [(true, false, 0.95), (true, false, 1.05)] ≤ 1.10) :=
  bess_soc_and_tap_invariants 50 [(0, 12, true), (0, 20, true), (0, 3, true)]
    1 [(true, false, 0.95), (true, false, 1.05)]
    (by norm_num) (by norm_num) (by norm_num) (by norm_num)

/-- Counterexample to claim C4: the solver does not always return a
triple — in the L-L-G branch the intermediate division by `Z2 + Z0` is
not guarded, so for `Z2 = Z0 = 0` the Python raises `ZeroDivisionError`
(modelled as `none`); the claimed "never divides by zero" fails. -/
theorem fault_solver_llg_division_by_zero :
    compute_symmetrical_components_physics .LLG 1 0.2 0 0 0 = none := by
  norm_num [compute_symmetrical_components_physics]

/-- Claim C4 as amended: only a denominator exactly equal to zero is
replaced by 0.001, and only the outer denominator of each fault type;
near-zero nonzero denominators are divided by directly, and the L-L-G
intermediate divider `Z2 + Z0` is unguarded.  Under the hypothesis that
`Z2 + Z0 ≠ 0` whenever the fault type is L-L-G, the solver always
returns a triple, and when the outer denominator is exactly zero the
returned currents are computed with 0.001 in its place. -/
theorem fault_solver_totality_and_zero_floor (ft : FaultType)
    (V Z1 Z2 Z0 Zf : ℚ) (h : ft = .LLG → Z2 + Z0 ≠ 0) :
    (compute_symmetrical_components_physics ft V Z1 Z2 Z0 Zf).isSome = true ∧
    (Z1 + Z2 + Z0 + 3 * Zf = 0 →
        compute_symmetrical_components_physics .LG V Z1 Z2 Z0 Zf
          = some (1000 * V, 1000 * V, 1000 * V)) ∧
    (Z1 + Z2 + Zf = 0 →
        compute_symmetrical_components_physics .LL V Z1 Z2 Z0 Zf
          = some (|1000 * V|, |1000 * V|, 0)) ∧
    (Z1 + Zf = 0 →
        compute_symmetrical_components_physics .LLL V Z1 Z2 Z0 Zf
          = some (1000 * V, 0, 0)) := by
  have hdiv : ∀ x : ℚ, x / (0.001 : ℚ) = 1000 * x := by
    intro x; rw [div_eq_mul_inv]; norm_num [mul_comm]
  refine ⟨?_, fun hz => ?_, fun hz => ?_, fun hz => ?_⟩
  · cases ft with
    | LG => simp [compute_symmetrical_components_physics]
    | LL => simp [compute_symmetrical_components_physics]
    | LLG =>
        simp only [compute_symmetrical_components_physics]
        rw [if_neg (h rfl)]
        simp
    | LLL => simp [compute_symmetrical_components_physics]
  · simp only [compute_symmetrical_components_physics]
    rw [if_pos hz, hdiv]
  · simp only [compute_symmetrical_components_physics]
    rw [if_pos hz, hdiv]
  · simp only [compute_symmetrical_components_physics]
    rw [if_pos hz, hdiv]

/-- Witness for the amended C4: an L-G fault with every impedance zero
is floored to the 0.001 denominator and returns 1000 pu in each
sequence network. -/
theorem fault_solver_totality_and_zero_floor_witness :
    (compute_symmetrical_components_physics .LG 1 0 0 0 0).isSome = true ∧
    compute_symmetrical_components_physics .LG 1 0 0 0 0
      = some (1000, 1000, 1000) := by
  have h := fault_solver_totality_and_zero_floor .LG 1 0 0 0 0
    (fun hh => absurd hh (by decide))
  exact ⟨h.1, by simpa using h.2.1 (by norm_num)⟩

/-- The IEC-curve denominator at 2 pu is not within the near-zero
clamp band: `2 ** 0.02 - 1 ≥ 1e-5`. -/
theorem two_rpow_denominator_not_small :
    (1e-5 : ℝ) ≤ |(2:ℝ) ^ (0.02:ℝ) - 1| := by
  have h1 : (2:ℝ) ^ (0.02:ℝ) = Real.exp (Real.log 2 * 0.02) :=
    Real.rpow_def_of_pos (by norm_num) 0.02
  have hlog : (0.6931471803 : ℝ) < Real.log 2 := Real.log_two_gt_d9
  have hexp : Real.log 2 * 0.02 + 1 ≤ Real.exp (Real.log 2 * 0.02) :=
    Real.add_one_le_exp (Real.log 2 * 0.02)
  have key : 1 + (1e-5 : ℝ) ≤ (2:ℝ) ^ (0.02:ℝ) := by
    rw [h1]; nlinarith [hexp, hlog]
  rw [abs_of_nonneg (by linarith)]
  linarith

/-- Claim C9: `calculate_iec_trip_time` returns no trip time for every
`current_pu ≤ 1.0`; above 1.0 it returns
`tms * (0.14 / (current_pu ** 0.02 - 1))`, except that a denominator
within `1e-5` of zero yields the clamp value 9999. -/
theorem iec_trip_time_spec (current_pu tms : ℝ) :
    (current_pu ≤ 1.0 → calculate_iec_trip_time current_pu tms = none) ∧
    (1.0 < current_pu → |current_pu ^ (0.02:ℝ) - 1| < 1e-5 →
        calculate_iec_trip_time current_pu tms = some 9999.0) ∧
    (1.0 < current_pu → 1e-5 ≤ |current_pu ^ (0.02:ℝ) - 1| →
        calculate_iec_trip_time current_pu tms
          = some (tms * (0.14 / (current_pu ^ (0.02:ℝ) - 1)))) := by
  refine ⟨fun h => ?_, fun h1 h2 => ?_, fun h1 h2 => ?_⟩
  · simp only [calculate_iec_trip_time]
    rw [if_pos h]
  · simp only [calculate_iec_trip_time]
    rw [if_neg (not_le.mpr h1), if_pos h2]
  · simp only [calculate_iec_trip_time]
    rw [if_neg (not_le.mpr h1), if_neg (not_lt.mpr h2)]

/-- Witness for C9: no trip at 0.5 pu; at 2 pu the very-inverse formula
value with TMS 0.5. -/
theorem iec_trip_time_spec_witness :
    calculate_iec_trip_time 0.5 0.5 = none ∧
    calculate_iec_trip_time 2 0.5
      = some (0.5 * (0.14 / ((2:ℝ) ^ (0.02:ℝ) - 1))) :=
  ⟨(iec_trip_time_spec 0.5 0.5).1 (by norm_num),
   (iec_trip_time_spec 2 0.5).2.2 (by norm_num)
     two_rpow_denominator_not_small⟩

/-- Claim C6: one call of `update_grid_physics` adds
`(50 - frequency) * 0.5 * 100` to the mechanical-power accumulator (no
reset), and integrates the frequency by `(accel / 2π) * 0.05` where
`accel = (Pm_pu - Pe_pu - D*ω_dev) / M`, `M = 2H/(2π f0)`,
`ω_dev = 2π (frequency - 50)`, and `Pm_pu` uses the freshly updated
accumulator. -/
theorem update_grid_physics_formulas (p q : ℝ) (s : GridState) :
    (update_grid_physics p q s).mech_power
        = s.mech_power + (50 - s.grid_freq) * 0.5 * 100 ∧
    (update_grid_physics p q s).grid_freq
        = s.grid_freq +
          (((s.mech_power + (50 - s.grid_freq) * 0.5 * 100)
                / (SYSTEM_BASE_MVA * 1000)
              - p / (SYSTEM_BASE_MVA * 1000)
              - DAMPING_D * (2 * Real.pi * (s.grid_freq - 50)))
            / (2 * INERTIA_H / (2 * Real.pi * NOMINAL_FREQ))
            / (2 * Real.pi)) * 0.05 := by
  constructor
  · simp only [update_grid_physics]
    norm_num
  · simp only [update_grid_physics]
    norm_num

/-- One iteration of the WLS loop stops immediately when the residual
of the incoming state is already below the tolerance. -/
theorem wls_loop_converged (se : StateEstimator) (z : ℝ × ℝ × ℝ)
    (Vs : ℝ) (fuel : ℕ) (x : ℝ × ℝ)
    (h : wls_max_abs (wls_residual z (wls_h se Vs x)) < 1e-4) :
    wls_loop se z Vs (fuel + 1) x = (x, wls_residual z (wls_h se Vs x)) := by
  simp only [wls_loop]
  rw [if_pos h]

/-- Claim C2: on the noiseless measurement `z = (1, 0, 0)` with source
voltage 1, the WLS solver converges at the flat start: the voltage
estimate is exactly 1 and the cost J exactly 0, hence both within the
1e-4 tolerance.  The hypothesis excludes the zero line impedance at
which the Python measurement function would divide by zero. -/
theorem wls_solve_noiseless_measurement (R X : ℝ)
    (h : ¬(R = 0 ∧ X = 0)) :
    StateEstimator.solve ⟨R, X⟩ (1, 0, 0) 1 = (1, 0) ∧
    |(StateEstimator.solve ⟨R, X⟩ (1, 0, 0) 1).1 - 1| ≤ 1e-4 ∧
    |(StateEstimator.solve ⟨R, X⟩ (1, 0, 0) 1).2| ≤ 1e-4 := by
  clear h
  have hh : wls_h ⟨R, X⟩ 1 (1.0, 0.0) = (1, 0, 0) := by
    norm_num [wls_h, cmath_rect, Real.cos_zero, Real.sin_zero]
  have hr : wls_residual (1, 0, 0) (wls_h ⟨R, X⟩ 1 (1.0, 0.0))
      = (0, 0, 0) := by
    rw [hh]; norm_num [wls_residual]
  have hcond : wls_max_abs (wls_residual (1, 0, 0)
      (wls_h ⟨R, X⟩ 1 (1.0, 0.0))) < 1e-4 := by
    rw [hr]; norm_num [wls_max_abs]
  have hsolve : StateEstimator.solve ⟨R, X⟩ (1, 0, 0) 1 = (1, 0) := by
    simp only [StateEstimator.solve]
    rw [show (10:ℕ) = 9 + 1 from rfl,
        wls_loop_converged ⟨R, X⟩ (1, 0, 0) 1 9 (1.0, 0.0) hcond, hr]
    norm_num [wls_J]
  refine ⟨hsolve, ?_, ?_⟩ <;> rw [hsolve] <;> norm_num

/-- Witness for C2 at the repository's per-unit-distance line impedance
`R = 0.005`, `X = 0.002`. -/
theorem wls_solve_noiseless_measurement_witness :
    StateEstimator.solve ⟨0.005, 0.002⟩ (1, 0, 0) 1 = (1, 0) ∧
    |(StateEstimator.solve ⟨0.005, 0.002⟩ (1, 0, 0) 1).1 - 1| ≤ 1e-4 ∧
    |(StateEstimator.solve ⟨0.005, 0.002⟩ (1, 0, 0) 1).2| ≤ 1e-4 :=
  wls_solve_noiseless_measurement 0.005 0.002 (by norm_num)
